import Mathlib

/-!
# Verification of the tiktok-gofun request-orchestration core

Shallow embedding of the scraper's core algorithms, translated from the Go
source (`search.go`, `scraper.go`, the browser signing agent, and the SSR
extractor), together with theorems settling the specification's claims.

Conventions of the embedding:
* Go `int`/`int64` values (cursors, limits, `time.Duration` nanoseconds)
  become `Int`; lengths are `Nat` cast to `Int` where the Go code compares
  them to an `int`.
* Go functions returning `(T, error)` become `Except GoErr T`; sentinel
  errors (`ErrRateLimited`, ...) become constructors of `GoErr`.  The Go
  code wraps errors with `fmt.Errorf("...: %w", err)`, which preserves
  sentinel identity under `errors.Is`; the embedding therefore carries the
  sentinel itself.
* A Go runtime panic (slicing with a negative bound) is a distinguished
  outcome constructor, not an error value.
* External collaborators (JSON codec, durable file storage, the browser's
  JavaScript engine, the HTTP remote) are parameters of the definitions,
  per the spec's external-interface contracts.
* Loops are embedded with an explicit fuel argument; fuel exhaustion is a
  distinguished outcome (`outOfFuel`) that the Go code itself can never
  produce, and every theorem supplies enough fuel for the scenario at hand.
-/

/-- Sentinel and wrapped error kinds of the scraper.  The first seven mirror
the `Err*` sentinels declared in the package; the remaining constructors
stand for the non-sentinel wrapped errors the code produces with
`fmt.Errorf` (empty required query, JSON decode failure, navigation and
wait-for-stable failures of the browser page). -/
inductive GoErr where
  | rateLimited
  | notFound
  | authRequired
  | captchaRequired
  | signingFailed
  | browserNotReady
  | invalidResponse
  | emptyQuery
  | decodeFailed
  | navigationFailed
  | waitFailed
  deriving DecidableEq, Repr

/-! ## Pagination walker (`search.go`)

`SearchVideos` and `SearchByHashtag` share one accumulation loop:

```go
for len(allVideos) < limit {
    s.waitForSearch()
    videos, nextCursor, err := s.fetchSearch(ctx, keyword, cursor)
    if err != nil { return allVideos, fmt.Errorf(...: %w, err) }
    allVideos = append(allVideos, videos...)
    if nextCursor == 0 { break }
    cursor = nextCursor
}
if len(allVideos) > limit { allVideos = allVideos[:limit] }
return allVideos, nil
```

The record type is abstract (`V`); the single-page fetch function is a
parameter.  The `calls` counter counts loop iterations: each iteration
performs exactly one `waitForSearch` and one fetch, so it is simultaneously
the number of fetch calls and of rate-limiter invocations. -/

/-- Outcome of the accumulation loop. -/
inductive LoopOut (V : Type) where
  | ok (videos : List V) (calls : Nat)
  | fail (videos : List V) (e : GoErr) (calls : Nat)
  | outOfFuel
  deriving DecidableEq

/-- The `for len(allVideos) < limit` loop of `SearchVideos` /
`SearchByHashtag`, fuel-indexed.  Fuel is consumed once per iteration. -/
def searchLoop {V : Type} (fetch : Int → Except GoErr (List V × Int))
    (limit : Int) : Nat → Int → List V → Nat → LoopOut V
  | 0, _cursor, acc, calls =>
    if (acc.length : Int) < limit then .outOfFuel else .ok acc calls
  | fuel + 1, cursor, acc, calls =>
    if (acc.length : Int) < limit then
      match fetch cursor with
      | .error e => .fail acc e (calls + 1)
      | .ok (videos, next) =>
        if next = 0 then .ok (acc ++ videos) (calls + 1)
        else searchLoop fetch limit fuel next (acc ++ videos) (calls + 1)
    else .ok acc calls

/-- Outcome of a whole search operation.  `panicked` models a Go runtime
panic (it records the fetch calls made before the panic); `err` carries the
partial results returned alongside the error. -/
inductive SVOut (V : Type) where
  | ok (videos : List V) (calls : Nat)
  | err (videos : List V) (e : GoErr) (calls : Nat)
  | panicked (calls : Nat)
  | outOfFuel
  deriving DecidableEq

/-- The post-loop tail shared by both search operations: run the loop from
cursor 0, then truncate with `allVideos = allVideos[:limit]` when
`len(allVideos) > limit`.  Go slicing `s[:limit]` panics when `limit < 0`
(the only way the bound can be invalid here, since `limit < len ≤ cap`
otherwise). -/
def paginate {V : Type} (fetch : Int → Except GoErr (List V × Int))
    (limit : Int) (fuel : Nat) : SVOut V :=
  match searchLoop fetch limit fuel 0 [] 0 with
  | .outOfFuel => .outOfFuel
  | .fail vids e calls => .err vids e calls
  | .ok vids calls =>
    if (vids.length : Int) > limit then
      if limit < 0 then .panicked calls
      else .ok (vids.take limit.toNat) calls
    else .ok vids calls

/-- `SearchVideos` (`search.go` lines 53–79): reject an empty keyword
without any fetch, otherwise run the pagination walker. -/
def SearchVideos {V : Type} (keyword : String) (limit : Int)
    (fetch : Int → Except GoErr (List V × Int)) (fuel : Nat) : SVOut V :=
  if keyword = "" then .err [] .emptyQuery 0
  else paginate fetch limit fuel

/-- `SearchByHashtag` (`search.go` lines 111–142): reject an empty hashtag,
resolve the challenge ID (its own browser fetch, modelled by its result),
then run the same pagination walker over `fetchHashtagVideos`. -/
def SearchByHashtag {V : Type} (hashtag : String) (limit : Int)
    (challenge : Except GoErr String)
    (fetch : String → Int → Except GoErr (List V × Int)) (fuel : Nat) :
    SVOut V :=
  if hashtag = "" then .err [] .emptyQuery 0
  else
    match challenge with
    | .error e => .err [] e 0
    | .ok cid => paginate (fetch cid) limit fuel

/-! ## Cursor normalization (`fetchSearch`, `fetchHashtagVideos`)

The remote encodes "more pages" inconsistently: `/api/search/item/full/`
returns an integer `has_more` (tested `== 1` in `search.go` line 103),
`/api/challenge/item_list/` a boolean `hasMore`.  Each single-page fetcher
normalizes the signal into the cursor: `nextCursor` stays `0` (the absent
value the walker stops on) unless the flag indicates more. -/

/-- Decoded body of `/api/search/item/full/` (`searchResponse`). -/
structure SearchResp (V : Type) where
  itemList : List V
  has_more : Int
  cursor : Int
  deriving DecidableEq

/-- Decoded body of `/api/challenge/item_list/`
(`challengeItemListResponse`). -/
structure ChallengeItemsResp (V : Type) where
  itemList : List V
  hasMore : Bool
  cursor : Int
  deriving DecidableEq

/-- Page-result normalization in `fetchSearch` (`search.go` 97–106):
`nextCursor := 0; if result.HasMore == 1 { nextCursor = result.Cursor }`. -/
def fetchSearchPage {V : Type} (r : SearchResp V) : List V × Int :=
  (r.itemList, if r.has_more = 1 then r.cursor else 0)

/-- Page-result normalization in `fetchHashtagVideos` (`search.go`
178–187): `nextCursor := 0; if result.HasMore { nextCursor = result.Cursor }`. -/
def fetchHashtagPage {V : Type} (r : ChallengeItemsResp V) : List V × Int :=
  (r.itemList, if r.hasMore then r.cursor else 0)

/-- The claim's notion of "the remote signalled more pages" for the search
endpoint (integer flag set). -/
def searchSignalsMore {V : Type} (r : SearchResp V) : Prop :=
  r.has_more = 1

instance {V : Type} (r : SearchResp V) : Decidable (searchSignalsMore r) := by
  unfold searchSignalsMore; infer_instance

/-- State reached after `k` successful pages of the accumulation loop:
starting at `cursor` with accumulator `acc`, follow `k` fetches that all
succeed, keep the loop running (accumulated length still below `limit`) and
return a nonzero next cursor.  `none` when the loop would not in fact take
`k` such steps. -/
def chainSteps {V : Type} (fetch : Int → Except GoErr (List V × Int))
    (limit : Int) : Nat → Int → List V → Option (List V × Int)
  | 0, cursor, acc => some (acc, cursor)
  | k + 1, cursor, acc =>
    if (acc.length : Int) < limit then
      match fetch cursor with
      | .error _ => none
      | .ok (videos, next) =>
        if next = 0 then none
        else chainSteps fetch limit k next (acc ++ videos)
    else none

/-- Pagination scenario: page of 10 records with the integer "more" flag
set (next cursor 17), then page of 5 records with the flag cleared — each
page normalized by `fetchSearchPage` exactly as `fetchSearch` does. -/
def pagesTwoFetch : Int → Except GoErr (List Nat × Int) := fun c =>
  if c = 0 then .ok (fetchSearchPage ⟨List.range 10, 1, 17⟩)
  else if c = 17 then .ok (fetchSearchPage ⟨(List.range 5).map (· + 10), 0, 0⟩)
  else .error .invalidResponse

/-- Pagination scenario: one page of 20 records with the "more" flag
cleared. -/
def pageTwentyFetch : Int → Except GoErr (List Nat × Int) := fun _ =>
  .ok (fetchSearchPage ⟨List.range 20, 0, 0⟩)

/-- Fetch stub whose first page succeeds (3 records, next cursor 7) and
whose second page fails rate-limited. -/
def failSecondFetch : Int → Except GoErr (List Nat × Int) := fun c =>
  if c = 0 then .ok ([0, 1, 2], 7) else .error .rateLimited

/-- Fetch stub that always fails (used only to show it is never called). -/
def neverOkFetch : Int → Except GoErr (List Unit × Int) := fun _ =>
  .error .notFound

/-! ## Rate limiter (`scraper.go` lines 276–311)

`throttle` is embedded over an idealized integer nanosecond clock: `now` is
the instant the call starts (`start := time.Now()`), `last` the stored
last-request timestamp for the class — `0` standing for the `time.Time{}`
zero value that `lastReq.IsZero()` tests — and `jitter` the value drawn
from `rand.Int64N(int64(500 * time.Millisecond))`, i.e. uniform in
`[0, 500000000)`.  Sleeping is exact and instantaneous bookkeeping: the
post-sleep `time.Now()` is `now + slept`. -/

/-- `throttle(lastReq, delay)`: returns the new stored timestamp and the
nanoseconds slept.  `delay = 0` returns immediately without touching the
timestamp; a first call (zero timestamp) records `now` and skips the wait;
otherwise `wait := delay + jitter - elapsed` is slept only when positive
and the timestamp becomes the post-sleep clock. -/
def throttle (delay jitter now last : Int) : Int × Int :=
  if delay = 0 then (last, 0)
  else if last = 0 then (now, 0)
  else
    let wait := delay + jitter - (now - last)
    if wait > 0 then (now + wait, wait) else (now, 0)

/-- The two per-class rate windows of the `Scraper` (`lastSearch`,
`lastProfile`); each class also has its own mutex, whose lock scope in the
Go code covers exactly the read and write of its own timestamp. -/
structure RateState where
  lastSearch : Int
  lastProfile : Int
  deriving DecidableEq

/-- `waitForSearch`: throttle on the search-class window only. -/
def waitForSearch (st : RateState) (searchDelay jitter now : Int) :
    RateState × Int :=
  let r := throttle searchDelay jitter now st.lastSearch
  ({ st with lastSearch := r.1 }, r.2)

/-- `waitForProfile`: throttle on the profile-class window only. -/
def waitForProfile (st : RateState) (profileDelay jitter now : Int) :
    RateState × Int :=
  let r := throttle profileDelay jitter now st.lastProfile
  ({ st with lastProfile := r.1 }, r.2)

/-! ## Signing agent (`part_006`: `ensureSigningReady`, `signURL`,
`browserFetch`)

The browser execution context is external; its observable behavior during
one call is captured by a `BrowserEnv`: whether the readiness probe's
JavaScript evaluation succeeds and what it reports, whether re-navigation
and wait-for-stable succeed, whether the signing (or sign-and-fetch)
evaluation succeeds and the text it produces.  Each operation additionally
returns the ordered list of browser interactions it performed, so that
"performs no recovery probe" and "probes before evaluating" are statements
about the event trace. -/

/-- A browser interaction performed by the signing agent. -/
inductive BrowserEvent where
  | probe
  | navigate
  | waitStable
  | evalJS
  deriving DecidableEq

/-- Oracle for the browser context's behavior during one call.
`evalValue` is the string the main evaluation produces: for `signURL` the
signed URL, for `browserFetch` the response text the page script read with
`resp.text()` (the script stringifies `{body: text, ...}` and the Go side
immediately unmarshals it back, so the composite is the text itself). -/
structure BrowserEnv where
  probeEvalOk : Bool
  probeFound : Bool
  navOk : Bool
  stableOk : Bool
  evalOk : Bool
  evalValue : String
  deriving DecidableEq

/-- Result of `ensureSigningReady`: the new readiness flag, the error if
any, and the browser interactions performed. -/
structure EnsureOut where
  ready : Bool
  err : Option GoErr
  events : List BrowserEvent
  deriving DecidableEq

/-- `ensureSigningReady` (`part_006` lines 202–219): no-op while the
cached flag is set; otherwise probe for `window.byted_acrawler`, and if the
probe errors or reports the function absent, re-navigate and wait for
stability (each failure returning before the flag is stored); finally store
`true`. -/
def ensureSigningReady (ready : Bool) (env : BrowserEnv) : EnsureOut :=
  if ready then ⟨true, none, []⟩
  else if env.probeEvalOk && env.probeFound then ⟨true, none, [.probe]⟩
  else if !env.navOk then ⟨false, some .navigationFailed, [.probe, .navigate]⟩
  else if !env.stableOk then
    ⟨false, some .waitFailed, [.probe, .navigate, .waitStable]⟩
  else ⟨true, none, [.probe, .navigate, .waitStable]⟩

/-- Result of `signURL`: the signed URL or error, the readiness flag after
the call, and the interactions performed. -/
structure SignOut where
  result : Except GoErr String
  ready : Bool
  events : List BrowserEvent

/-- `signURL` (`part_006` lines 77–112): fail `ErrBrowserNotReady` when no
page exists; run `ensureSigningReady`; evaluate the signing script with a
bounded timeout; on evaluation failure store `signingReady = false` and
return `ErrSigningFailed`. -/
def signURL (pageExists ready : Bool) (env : BrowserEnv) : SignOut :=
  if !pageExists then ⟨.error .browserNotReady, ready, []⟩
  else
    let en := ensureSigningReady ready env
    match en.err with
    | some e => ⟨.error e, en.ready, en.events⟩
    | none =>
      if env.evalOk then ⟨.ok env.evalValue, en.ready, en.events ++ [.evalJS]⟩
      else ⟨.error .signingFailed, false, en.events ++ [.evalJS]⟩

/-- Result of `browserFetch`: the fetched body (`none` models the Go
`return nil, nil` on an empty body), the readiness flag after the call, and
the interactions performed. -/
structure FetchOut where
  result : Except GoErr (Option String)
  ready : Bool
  events : List BrowserEvent

/-- `browserFetch` (`part_006` lines 119–198): same readiness discipline
as `signURL` around a single sign-and-fetch evaluation; on success the body
text is returned, with an empty body mapped to `nil` bytes. -/
def browserFetch (pageExists ready : Bool) (env : BrowserEnv) : FetchOut :=
  if !pageExists then ⟨.error .browserNotReady, ready, []⟩
  else
    let en := ensureSigningReady ready env
    match en.err with
    | some e => ⟨.error e, en.ready, en.events⟩
    | none =>
      if env.evalOk then
        ⟨.ok (if env.evalValue = "" then none else some env.evalValue),
          en.ready, en.events ++ [.evalJS]⟩
      else ⟨.error .signingFailed, false, en.events ++ [.evalJS]⟩

/-! ## HTTP status classification and fetch routing (`scraper.go`
`doRequest`, `search.go` `browserAPIRequest`)

A remote response is modelled as its status code and body text.  The
direct transport (`doRequest`) classifies the status; the browser-mediated
path does not: the page script of `browserFetch` reads `resp.text()` and
never `resp.status`. -/

/-- The status switch of `doRequest` (`scraper.go` lines 245–252):
`http.StatusTooManyRequests` (429) → `ErrRateLimited`,
`http.StatusNotFound` (404) → `ErrNotFound`, anything else falls through. -/
def classifyStatus (status : Nat) : Option GoErr :=
  if status = 429 then some .rateLimited
  else if status = 404 then some .notFound
  else none

/-- `doRequest` outcome on a response `(status, body)`: the sentinel from
the status switch, or the response passed through to the caller. -/
def doRequest (status : Nat) (body : String) : Except GoErr String :=
  match classifyStatus status with
  | some e => .error e
  | none => .ok body

/-- The text the `browserFetch` page script produces from a remote HTTP
response: `await resp.text()` — the script never consults `resp.status`,
so the status argument is dead. -/
def jsFetchText (_status : Nat) (body : String) : String := body

/-- Browser environment for a sign-and-fetch call against a healthy ready
browser whose remote answers `(status, body)`. -/
def httpEnv (status : Nat) (body : String) : BrowserEnv :=
  ⟨true, true, true, true, true, jsFetchText status body⟩

/-- Tail of `browserAPIRequest` (`search.go` lines 41–48): propagate a
fetch error (wrapped), reject an empty body as `ErrInvalidResponse`. -/
def browserAPIRequest (fetched : Except GoErr (Option String)) :
    Except GoErr String :=
  match fetched with
  | .error e => .error e
  | .ok none => .error .invalidResponse
  | .ok (some b) => if b.length = 0 then .error .invalidResponse else .ok b

/-- `fetchSearch` over an already-fetched browser response: decode the body
with the external JSON decoder (`none` = `json.Unmarshal` error) and
normalize the page with `fetchSearchPage`. -/
def fetchSearchVia {V : Type} (decode : String → Option (SearchResp V))
    (fetched : Except GoErr (Option String)) : Except GoErr (List V × Int) :=
  match browserAPIRequest fetched with
  | .error e => .error e
  | .ok body =>
    match decode body with
    | none => .error .decodeFailed
    | some r => .ok (fetchSearchPage r)

/-- One search-endpoint page fetch routed through the ready browser against
a remote answering `(status, body)`. -/
def searchFetchOnResponse {V : Type} (decode : String → Option (SearchResp V))
    (status : Nat) (body : String) : Except GoErr (List V × Int) :=
  fetchSearchVia decode (browserFetch true true (httpEnv status body)).result

/-! ## SSR extractor and profile lookup (`part_002` extractor, `user.go`
`GetUser`)

HTML bodies are strings; `bytes.Index` is embedded as `indexOfSub` over
character lists.  The JSON decoding of the extracted script payload is the
external decoder collaborator (a parameter), and only the fields the code
reads are modelled (`__DEFAULT_SCOPE__ → webapp.user-detail → userInfo →
user → uniqueId`, plus the id carried into the `Author`). -/

/-- `bytes.Index(hay, needle)`: index of the first occurrence of `needle`
in `hay`, `none` when absent (an empty needle occurs at index 0). -/
def indexOfSub (needle : List Char) : List Char → Option Nat
  | [] => if needle.isPrefixOf ([] : List Char) then some 0 else none
  | c :: t =>
    if needle.isPrefixOf (c :: t) then some 0
    else (indexOfSub needle t).map (· + 1)

/-- `ssrTagOpen`. -/
def ssrTagOpen : String :=
  "<script id=\"__UNIVERSAL_DATA_FOR_REHYDRATION__\" type=\"application/json\">"

/-- `ssrTagClose`. -/
def ssrTagClose : String := "</script>"

/-- `rawUserDetail` (fields the extractor reads). -/
structure RawUserDetail where
  id : String
  uniqueId : String
  deriving DecidableEq

/-- `rawUserInfo`. -/
structure RawUserInfo where
  user : RawUserDetail
  deriving DecidableEq

/-- `userDetailWrapper`. -/
structure UserDetailWrapper where
  userInfo : RawUserInfo
  deriving DecidableEq

/-- `defaultScope`. -/
structure UniversalDefaultScope where
  userDetail : UserDetailWrapper
  deriving DecidableEq

/-- `universalData`. -/
structure UniversalData where
  defaultScope : UniversalDefaultScope
  deriving DecidableEq

/-- Public `Author` record (the fields relevant here). -/
structure Author where
  id : String
  username : String
  deriving DecidableEq

/-- `parseAuthor` restricted to the modelled fields. -/
def parseAuthor (info : RawUserInfo) : Author :=
  ⟨info.user.id, info.user.uniqueId⟩

/-- `extractUniversalData` (`part_002` lines 1240–1259): locate the
rehydration script tag, cut the JSON between it and the closing tag, then
decode; a missing open or close tag is `ErrInvalidResponse`, a decoder
failure is the (non-sentinel) wrapped unmarshal error. -/
def extractUniversalData (parse : String → Option UniversalData)
    (htmlBody : String) : Except GoErr UniversalData :=
  match indexOfSub ssrTagOpen.data htmlBody.data with
  | none => .error .invalidResponse
  | some idx =>
    let start := idx + ssrTagOpen.length
    let rest := htmlBody.data.drop start
    match indexOfSub ssrTagClose.data rest with
    | none => .error .invalidResponse
    | some endIdx =>
      match parse (String.mk (rest.take endIdx)) with
      | none => .error .decodeFailed
      | some d => .ok d

/-- `extractUserFromSSR` (`part_002` lines 1262–1268): an empty `uniqueId`
in the embedded user object is `ErrNotFound`. -/
def extractUserFromSSR (d : UniversalData) : Except GoErr Author :=
  if d.defaultScope.userDetail.userInfo.user.uniqueId = "" then
    .error .notFound
  else .ok (parseAuthor d.defaultScope.userDetail.userInfo)

/-- `GetUser` (`user.go`) over a remote response `(status, body)`: empty
username rejected without network, then `doRequest` status classification,
then the SSR extraction pipeline; every error is wrapped with context,
preserving sentinel identity. -/
def GetUser (parse : String → Option UniversalData) (username : String)
    (status : Nat) (body : String) : Except GoErr Author :=
  if username = "" then .error .emptyQuery
  else
    match doRequest status body with
    | .error e => .error e
    | .ok b =>
      match extractUniversalData parse b with
      | .error e => .error e
      | .ok d => extractUserFromSSR d

/-- Decoder stub returning an embedded user object with all fields empty. -/
def emptyUserParse : String → Option UniversalData :=
  fun _ => some ⟨⟨⟨⟨⟨"", ""⟩⟩⟩⟩⟩

/-- HTML carrying the rehydration marker around an empty JSON object. -/
def emptyUserHTML : String := ssrTagOpen ++ "{}" ++ ssrTagClose

/-! ## Session store (`scraper.go` `GetCookies`/`SetCookies`/
`SaveCookies`/`LoadCookies`)

The `net/http/cookiejar` jar and the JSON-file durable storage are external
collaborators: the jar is modelled per the spec's Session Store contract
(`set` overwrites wholesale; `get` returns the stored set — the jar hands
back name/value cookies), and the marshal/unmarshal pair of the storage is
a parameter whose round-trip property is the storage contract. -/

/-- A session cookie as the jar reproduces it (name and value). -/
structure Cookie where
  name : String
  value : String
  deriving DecidableEq

/-- The scraper's session-relevant state: cookie jar, cached `msToken`,
logged-in flag. -/
structure SessionState where
  jar : List Cookie
  msToken : String
  isLogged : Bool
  deriving DecidableEq

/-- A scraper as `New()` creates it: empty jar, no token, not logged in. -/
def newScraper : SessionState := ⟨[], "", false⟩

/-- `GetCookies`: the jar's cookies for the TikTok origin. -/
def GetCookies (st : SessionState) : List Cookie := st.jar

/-- The msToken re-derivation loop of `SetCookies`: the last cookie named
`msToken` wins; with none present the previous token is kept. -/
def scanMsToken (init : String) (cookies : List Cookie) : String :=
  cookies.foldl (fun acc c => if c.name = "msToken" then c.value else acc) init

/-- `SetCookies` (`scraper.go` lines 319–326): store the cookies and
re-derive the session token by scanning for the well-known cookie name. -/
def SetCookies (st : SessionState) (cookies : List Cookie) : SessionState :=
  { st with jar := cookies, msToken := scanMsToken st.msToken cookies }

/-- `SaveCookies` (`scraper.go` lines 329–335): marshal the current cookie
set; the produced value is the file content handed to durable storage. -/
def SaveCookies {F : Type} (marshal : List Cookie → F) (st : SessionState) :
    F :=
  marshal (GetCookies st)

/-- `LoadCookies` (`scraper.go` lines 338–350): unmarshal the file content
(`none` = read/unmarshal error), set the cookies, mark logged in. -/
def LoadCookies {F : Type} (unmarshal : F → Option (List Cookie))
    (st : SessionState) (content : F) : Option SessionState :=
  match unmarshal content with
  | none => none
  | some cookies => some { SetCookies st cookies with isLogged := true }

/-! ## Theorems: pagination walker -/

/-- Loop lemma behind the partial-results claim: if `chainSteps` reaches
state `(acc', c')` after `k` successful pages, the loop is still running,
and the fetch at `c'` fails, then the loop returns exactly the accumulated
records together with the error, after `k + 1` fetch calls. -/
lemma searchLoop_fail_of_chainSteps {V : Type}
    (fetch : Int → Except GoErr (List V × Int)) (limit : Int) (e : GoErr) :
    ∀ (k fuel : Nat) (cursor : Int) (acc : List V) (calls : Nat)
      (acc' : List V) (c' : Int),
      chainSteps fetch limit k cursor acc = some (acc', c') →
      (acc'.length : Int) < limit →
      fetch c' = .error e →
      k < fuel →
      searchLoop fetch limit fuel cursor acc calls
        = .fail acc' e (calls + k + 1) := by
  intro k
  induction k with
  | zero =>
    intro fuel cursor acc calls acc' c' h1 h2 h3 h4
    obtain ⟨f, rfl⟩ : ∃ f, fuel = f + 1 := ⟨fuel - 1, by omega⟩
    simp only [chainSteps, Option.some.injEq, Prod.mk.injEq] at h1
    obtain ⟨rfl, rfl⟩ := h1
    simp only [searchLoop, if_pos h2, h3]
  | succ k ih =>
    intro fuel cursor acc calls acc' c' h1 h2 h3 h4
    obtain ⟨f, rfl⟩ : ∃ f, fuel = f + 1 := ⟨fuel - 1, by omega⟩
    simp only [chainSteps] at h1
    by_cases hc : (acc.length : Int) < limit
    · rw [if_pos hc] at h1
      cases hf : fetch cursor with
      | error e2 => rw [hf] at h1; exact absurd h1 (by simp)
      | ok p =>
        obtain ⟨videos, next⟩ := p
        rw [hf] at h1
        dsimp only at h1
        by_cases hn : next = 0
        · rw [if_pos hn] at h1; exact absurd h1 (by simp)
        · rw [if_neg hn] at h1
          have hrec := ih f next (acc ++ videos) (calls + 1) acc' c' h1 h2 h3
            (by omega)
          simp only [searchLoop, if_pos hc, hf, if_neg hn, hrec]
          congr 1
          omega
    · rw [if_neg hc] at h1
      exact absurd h1 (by simp)

/-- C1: for every non-empty keyword, with a page-fetch returning pages of
sizes [10, 5] ("more" set on page 1, cleared on page 2), `SearchVideos`
with limit 50 returns exactly the 15 records in exactly two fetch calls;
and with a single page of 20 records ("more" cleared), `SearchVideos` with
limit 5 returns exactly 5 records in exactly one fetch call — truncation
happens once, after the loop, never mid-page. -/
theorem searchVideos_pagination_scenarios (kw : String) (hkw : kw ≠ "") :
    SearchVideos kw 50 pagesTwoFetch 3 = .ok (List.range 15) 2 ∧
    SearchVideos kw 5 pageTwentyFetch 2 = .ok (List.range 5) 1 := by
  constructor <;> · simp only [SearchVideos, if_neg hkw]; decide

/-- Witness for C1 at the concrete keyword "bonk". -/
theorem searchVideos_pagination_scenarios_witness :
    SearchVideos "bonk" 50 pagesTwoFetch 3 = .ok (List.range 15) 2 ∧
    SearchVideos "bonk" 5 pageTwentyFetch 2 = .ok (List.range 5) 1 :=
  searchVideos_pagination_scenarios "bonk" (by decide)

/-- C2 counterexample: the claim "the normalized continuation cursor is
absent exactly when the remote signals no further pages" is false: a search
page with the integer "has more" flag set to 1 but remote cursor 0
normalizes to the absent cursor 0 (the walker stops) even though the remote
signalled more pages. -/
theorem cursor_normalization_counterexample :
    ¬ ∀ (r : SearchResp Unit),
        ((fetchSearchPage r).2 = 0 ↔ ¬ searchSignalsMore r) := by
  intro h
  have h0 := (h ⟨[], 1, 0⟩).mp rfl
  exact h0 rfl

/-- C2 amended: the normalized cursor is absent (0) whenever the remote
signals no further pages — on the search endpoint any integer flag other
than 1 (in particular 0, which is also what an absent flag decodes to), on
the hashtag endpoint `false` (also the decode of an absent flag); and the
walker continues if and only if the remote signalled more pages *and*
supplied a nonzero cursor. -/
theorem cursor_normalization_amended :
    (∀ (V : Type) (r : SearchResp V),
      ¬ searchSignalsMore r → (fetchSearchPage r).2 = 0) ∧
    (∀ (V : Type) (r : SearchResp V),
      (fetchSearchPage r).2 ≠ 0 ↔ searchSignalsMore r ∧ r.cursor ≠ 0) ∧
    (∀ (V : Type) (r : ChallengeItemsResp V),
      r.hasMore = false → (fetchHashtagPage r).2 = 0) ∧
    (∀ (V : Type) (r : ChallengeItemsResp V),
      (fetchHashtagPage r).2 ≠ 0 ↔ r.hasMore = true ∧ r.cursor ≠ 0) := by
  refine ⟨fun V r h => ?_, fun V r => ?_, fun V r h => ?_, fun V r => ?_⟩
  · simp only [fetchSearchPage, searchSignalsMore] at *
    rw [if_neg h]
  · simp only [fetchSearchPage, searchSignalsMore]
    by_cases h : r.has_more = 1 <;> simp [h]
  · simp [fetchHashtagPage, h]
  · simp only [fetchHashtagPage]
    by_cases h : r.hasMore <;> simp [h]

/-- Witness for the amended C2 at concrete pages. -/
theorem cursor_normalization_amended_witness :
    (fetchSearchPage (⟨[], 0, 5⟩ : SearchResp Unit)).2 = 0 ∧
    (fetchHashtagPage (⟨[], false, 5⟩ : ChallengeItemsResp Unit)).2 = 0 ∧
    (fetchSearchPage (⟨[], 1, 9⟩ : SearchResp Unit)).2 ≠ 0 := by
  have h := cursor_normalization_amended
  exact ⟨h.1 Unit ⟨[], 0, 5⟩ (by decide), h.2.2.1 Unit ⟨[], false, 5⟩ rfl,
    (h.2.1 Unit ⟨[], 1, 9⟩).mpr (by decide)⟩

/-- C3: if `k` pages were fetched successfully and the `(k+1)`-th fetch
fails, both `SearchVideos` and `SearchByHashtag` return the records
accumulated from the `k` successful pages together with the (non-nil)
error — partial results are never discarded on a later-page failure. -/
theorem search_partial_results_on_failure {V : Type}
    (fetch : Int → Except GoErr (List V × Int)) (limit : Int)
    (k fuel : Nat) (acc : List V) (c : Int) (e : GoErr) (kw : String)
    (hkw : kw ≠ "")
    (hchain : chainSteps fetch limit k 0 [] = some (acc, c))
    (hlen : (acc.length : Int) < limit)
    (hfail : fetch c = .error e)
    (hfuel : k < fuel) :
    SearchVideos kw limit fetch fuel = .err acc e (k + 1) ∧
    ∀ (ht cid : String), ht ≠ "" →
      SearchByHashtag ht limit (.ok cid) (fun _ => fetch) fuel
        = .err acc e (k + 1) := by
  have hloop := searchLoop_fail_of_chainSteps fetch limit e k fuel 0 [] 0
    acc c hchain hlen hfail hfuel
  have hpag : paginate fetch limit fuel = (.err acc e (k + 1) : SVOut V) := by
    simp only [paginate, hloop, Nat.zero_add]
  constructor
  · simp only [SearchVideos, if_neg hkw, hpag]
  · intro ht cid hht
    simp only [SearchByHashtag, if_neg hht, hpag]

/-- Witness for C3: first page succeeds with 3 records, second page fails
rate-limited; both operations return the 3 records plus the error. -/
theorem search_partial_results_on_failure_witness :
    SearchVideos "bonk" 10 failSecondFetch 3 = .err [0, 1, 2] .rateLimited 2 ∧
    SearchByHashtag "bonk" 10 (.ok "789") (fun _ => failSecondFetch) 3
      = .err [0, 1, 2] .rateLimited 2 := by
  have h := search_partial_results_on_failure failSecondFetch 10 1 3
    [0, 1, 2] 7 .rateLimited "bonk" (by decide) (by decide) (by decide)
    (by rfl) (by omega)
  exact ⟨h.1, h.2 "bonk" "789" (by decide)⟩

/-- C10 counterexample: with a negative limit `SearchVideos` does not
return an empty list with nil error — the final truncation
`allVideos[:limit]` slices with a negative bound and panics (still without
ever invoking the fetch function: the recorded call count is 0). -/
theorem searchVideos_negative_limit_counterexample :
    SearchVideos "bonk" (-1) neverOkFetch 1 = .panicked 0 := by decide

/-- C10 amended: for every non-empty keyword and `limit = 0`,
`SearchVideos` returns an empty record list and nil error without invoking
the page-fetch function (or the rate limiter, which the loop invokes in
lock-step with it) even once; for `limit < 0` it likewise makes no fetch
call, but panics at the post-loop truncation instead of returning. -/
theorem searchVideos_nonpositive_limit {V : Type} (kw : String)
    (hkw : kw ≠ "") (limit : Int) (hlim : limit ≤ 0)
    (fetch : Int → Except GoErr (List V × Int)) (fuel : Nat) :
    SearchVideos kw limit fetch fuel
      = if limit < 0 then .panicked 0 else .ok [] 0 := by
  have hloop : searchLoop fetch limit fuel 0 [] 0 = .ok [] 0 := by
    cases fuel <;> simp [searchLoop, not_lt.mpr hlim]
  rcases lt_or_eq_of_le hlim with h | h
  · simp only [SearchVideos, if_neg hkw, paginate, hloop, if_pos h,
      List.length_nil, Nat.cast_zero, if_pos (by omega : (0 : Int) > limit)]
  · subst h
    simp [SearchVideos, if_neg hkw, paginate, hloop]

/-- Witness for the amended C10 at keyword "bonk", limit 0. -/
theorem searchVideos_nonpositive_limit_witness :
    SearchVideos "bonk" 0 neverOkFetch 1 = .ok [] 0 := by
  have h := searchVideos_nonpositive_limit "bonk" (by decide) 0 (by decide)
    neverOkFetch 1
  simpa using h

/-! ## Theorems: rate limiter -/

/-- C6: for a configured interval `delay > 0`, two consecutive throttle
calls on the same class begin execution at least `delay` apart: the new
stored begin-timestamp exceeds the previous one by at least `delay`.  The
computed sleep is `interval + jitter - elapsed`, slept only when positive;
and a class with interval 0 returns immediately, never sleeps, and leaves
its timestamp untouched. -/
theorem throttle_min_interval (delay jitter now last : Int)
    (hd : 0 < delay) (hj : 0 ≤ jitter) (hjmax : jitter < 500000000)
    (hlast : last ≠ 0) (_hmono : last ≤ now) :
    (delay ≤ (throttle delay jitter now last).1 - last ∧
      (throttle delay jitter now last).2
        = max 0 (delay + jitter - (now - last))) ∧
    ∀ (j n l : Int), throttle 0 j n l = (l, 0) := by
  have hd0 : ¬ delay = 0 := by omega
  refine ⟨?_, fun j n l => by simp [throttle]⟩
  by_cases hw : delay + jitter - (now - last) > 0
  · simp only [throttle, if_neg hd0, if_neg hlast, if_pos hw]
    constructor <;> omega
  · simp only [throttle, if_neg hd0, if_neg hlast, if_neg hw]
    constructor <;> omega

/-- Witness for C6: search-class interval 2s, jitter 100ns, 1s elapsed. -/
theorem throttle_min_interval_witness :
    (2000000000 : Int)
      ≤ (throttle 2000000000 100 5000000000 4000000000).1 - 4000000000 :=
  (throttle_min_interval 2000000000 100 5000000000 4000000000 (by decide)
    (by decide) (by decide) (by decide) (by decide)).1.1

/-- C7: class independence of the throttles.  A search-class throttle
writes only the search timestamp (the profile timestamp is unchanged), and
reads only the search timestamp (two states agreeing on it produce the same
sleep and the same new timestamp); symmetrically for the profile class.
Consequently a profile throttle issued immediately after a search throttle
sleeps exactly as long as it would have without the search throttle — it
inherits no wait from the search class — and vice versa. -/
theorem rate_limiter_classes_independent :
    (∀ (st : RateState) (d j n : Int),
      (waitForSearch st d j n).1.lastProfile = st.lastProfile) ∧
    (∀ (st1 st2 : RateState) (d j n : Int),
      st1.lastSearch = st2.lastSearch →
      (waitForSearch st1 d j n).1.lastSearch
          = (waitForSearch st2 d j n).1.lastSearch ∧
        (waitForSearch st1 d j n).2 = (waitForSearch st2 d j n).2) ∧
    (∀ (st : RateState) (d j n : Int),
      (waitForProfile st d j n).1.lastSearch = st.lastSearch) ∧
    (∀ (st1 st2 : RateState) (d j n : Int),
      st1.lastProfile = st2.lastProfile →
      (waitForProfile st1 d j n).1.lastProfile
          = (waitForProfile st2 d j n).1.lastProfile ∧
        (waitForProfile st1 d j n).2 = (waitForProfile st2 d j n).2) ∧
    (∀ (st : RateState) (sd pd js jp ns np : Int),
      (waitForProfile (waitForSearch st sd js ns).1 pd jp np).2
        = (waitForProfile st pd jp np).2) ∧
    (∀ (st : RateState) (sd pd js jp ns np : Int),
      (waitForSearch (waitForProfile st pd jp np).1 sd js ns).2
        = (waitForSearch st sd js ns).2) := by
  refine ⟨fun st d j n => rfl,
    fun st1 st2 d j n h => ?_,
    fun st d j n => rfl,
    fun st1 st2 d j n h => ?_,
    fun st sd pd js jp ns np => rfl,
    fun st sd pd js jp ns np => rfl⟩
  · simp [waitForSearch, h]
  · simp [waitForProfile, h]

/-- Witness for C7: a profile throttle right after a search throttle on a
concrete state sleeps exactly what it would have slept anyway. -/
theorem rate_limiter_classes_independent_witness :
    (waitForSearch (⟨100, 200⟩ : RateState) 2 5 300 |>.1.lastProfile) = 200 ∧
    (waitForSearch (⟨100, 200⟩ : RateState) 2 5 300 |>.2)
      = (waitForSearch (⟨100, 999⟩ : RateState) 2 5 300 |>.2) := by
  have h := rate_limiter_classes_independent
  exact ⟨h.1 ⟨100, 200⟩ 2 5 300,
    (h.2.1 ⟨100, 200⟩ ⟨100, 999⟩ 2 5 300 rfl).2⟩

/-! ## Theorems: signing readiness state machine -/

/-- C4: (a) while the flag is `Ready`, a sign or sign-and-fetch call whose
evaluation does not fail performs no recovery probe — the event trace is
the single evaluation, `ensureSigningReady` contributes nothing — and the
flag stays `Ready`; (b) after any sign or sign-and-fetch call whose
evaluation fails, the returned state has the flag reset to `NotReady`
alongside the propagated `ErrSigningFailed`; (c) a call entered with the
flag `NotReady` performs the recovery probe first (the probe is the first
browser interaction, before any evaluation). -/
theorem signing_readiness_state_machine :
    (∀ env : BrowserEnv, env.evalOk = true →
      signURL true true env = ⟨.ok env.evalValue, true, [.evalJS]⟩ ∧
      browserFetch true true env
        = ⟨.ok (if env.evalValue = "" then none else some env.evalValue),
            true, [.evalJS]⟩) ∧
    (∀ (ready : Bool) (env : BrowserEnv), env.evalOk = false →
      (ensureSigningReady ready env).err = none →
      (signURL true ready env).result = .error .signingFailed ∧
      (signURL true ready env).ready = false ∧
      (browserFetch true ready env).result = .error .signingFailed ∧
      (browserFetch true ready env).ready = false) ∧
    (∀ env : BrowserEnv,
      (signURL true false env).events.head? = some .probe ∧
      (browserFetch true false env).events.head? = some .probe) := by
  refine ⟨fun env hev => ?_, fun ready env hev hnone => ?_, fun env => ?_⟩
  · obtain ⟨p, q, nv, stb, ev, v⟩ := env
    dsimp only at hev
    subst hev
    constructor <;> simp [signURL, browserFetch, ensureSigningReady]
  · obtain ⟨p, q, nv, stb, ev, v⟩ := env
    dsimp only at hev
    subst hev
    cases ready <;> cases p <;> cases q <;> cases nv <;> cases stb <;>
      simp_all [signURL, browserFetch, ensureSigningReady]
  · obtain ⟨p, q, nv, stb, ev, v⟩ := env
    cases p <;> cases q <;> cases nv <;> cases stb <;> cases ev <;>
      simp [signURL, browserFetch, ensureSigningReady]

/-- Witness for C4: a ready browser with a healthy evaluation signs with no
probe; a failed evaluation resets readiness; the following call probes
first. -/
theorem signing_readiness_state_machine_witness :
    signURL true true ⟨true, true, true, true, true, "signed"⟩
      = ⟨.ok "signed", true, [.evalJS]⟩ ∧
    (signURL true true ⟨true, true, true, true, false, "x"⟩).ready = false ∧
    (signURL true false ⟨true, true, true, true, true, "y"⟩).events.head?
      = some .probe := by
  have h := signing_readiness_state_machine
  exact ⟨(h.1 ⟨true, true, true, true, true, "signed"⟩ rfl).1,
    (h.2.1 true ⟨true, true, true, true, false, "x"⟩ rfl rfl).2.1,
    (h.2.2 ⟨true, true, true, true, true, "y"⟩).1⟩

/-! ## Theorems: status classification -/

/-- C5 (code-bug evaluation): the direct transport (`doRequest`, used by
the profile lookup) does classify statuses — 429 yields `ErrRateLimited`,
404 `ErrNotFound`, every other status is passed through — and `GetUser`
surfaces those sentinels.  But the keyword/hashtag search operations route
through `browserFetch`, whose page script reads only `resp.text()`: at the
failing input (remote answers HTTP 429 with the empty body such responses
carry), `SearchVideos` fails with `ErrInvalidResponse`, not
`ErrRateLimited`, for every decoder — contradicting the claim and the
repository's own tests. -/
theorem status_classification_by_transport :
    (∀ body : String, doRequest 429 body = .error .rateLimited) ∧
    (∀ body : String, doRequest 404 body = .error .notFound) ∧
    (∀ (status : Nat) (body : String), status ≠ 429 → status ≠ 404 →
      doRequest status body = .ok body) ∧
    (∀ (parse : String → Option UniversalData) (u : String), u ≠ "" →
      GetUser parse u 429 "" = .error .rateLimited ∧
      GetUser parse u 404 "" = .error .notFound) ∧
    (∀ (decode : String → Option (SearchResp Unit)) (kw : String)
       (fuel : Nat), kw ≠ "" →
      SearchVideos kw 10 (fun _ => searchFetchOnResponse decode 429 "")
          (fuel + 1)
        = .err [] .invalidResponse 1) := by
  refine ⟨fun body => rfl, fun body => rfl,
    fun status body h429 h404 => ?_, fun parse u hu => ?_,
    fun decode kw fuel hkw => ?_⟩
  · simp [doRequest, classifyStatus, h429, h404]
  · constructor <;> simp [GetUser, if_neg hu, doRequest, classifyStatus]
  · have hfetch : searchFetchOnResponse decode 429 ""
        = (.error .invalidResponse : Except GoErr (List Unit × Int)) := rfl
    simp [SearchVideos, if_neg hkw, paginate, searchLoop, hfetch]

/-- Witness for C5's evaluation at concrete inputs. -/
theorem status_classification_by_transport_witness :
    doRequest 429 "x" = .error .rateLimited ∧
    doRequest 500 "oops" = .ok "oops" ∧
    GetUser emptyUserParse "alice" 429 "" = .error .rateLimited ∧
    SearchVideos "bonk" 10
        (fun _ => searchFetchOnResponse
          (fun _ => (none : Option (SearchResp Unit))) 429 "") 1
      = .err [] .invalidResponse 1 := by
  have h := status_classification_by_transport
  exact ⟨h.1 "x", h.2.2.1 500 "oops" (by decide) (by decide),
    (h.2.2.2.1 emptyUserParse "alice" (by decide)).1,
    h.2.2.2.2 (fun _ => (none : Option (SearchResp Unit))) "bonk" 0
      (by decide)⟩

/-! ## Theorems: session store -/

/-- C8: for every cookie set, saving and then loading on a fresh scraper
reproduces the scraper state exactly, but for the logged-in flag set —
in particular the same cookie set and the same re-derived `msToken` — given
the durable-storage collaborator's round-trip contract; and any successful
`LoadCookies` alone (the model performs no network activity) makes
`IsLoggedIn` true. -/
theorem cookie_roundtrip {F : Type} (marshal : List Cookie → F)
    (unmarshal : F → Option (List Cookie))
    (hrt : ∀ x, unmarshal (marshal x) = some x) :
    (∀ cs : List Cookie,
      LoadCookies unmarshal newScraper
          (SaveCookies marshal (SetCookies newScraper cs))
        = some { SetCookies newScraper cs with isLogged := true }) ∧
    (∀ cs : List Cookie,
      GetCookies { SetCookies newScraper cs with isLogged := true }
          = GetCookies (SetCookies newScraper cs) ∧
        ({ SetCookies newScraper cs with isLogged := true }).msToken
          = (SetCookies newScraper cs).msToken) ∧
    (∀ (st : SessionState) (content : F) (s2 : SessionState),
      LoadCookies unmarshal st content = some s2 → s2.isLogged = true) := by
  refine ⟨fun cs => ?_, fun cs => ⟨rfl, rfl⟩,
    fun st content s2 h => ?_⟩
  · simp only [LoadCookies, SaveCookies, GetCookies, hrt]
    rfl
  · unfold LoadCookies at h
    cases hc : unmarshal content with
    | none => rw [hc] at h; exact absurd h (by simp)
    | some cookies =>
      rw [hc] at h
      simp only [Option.some.injEq] at h
      subst h
      rfl

/-- Witness for C8 with the identity storage codec and a concrete cookie
set carrying an `msToken`. -/
theorem cookie_roundtrip_witness :
    LoadCookies (fun x => some x) newScraper
        (SaveCookies (fun x => x)
          (SetCookies newScraper [⟨"msToken", "tok"⟩, ⟨"sessionid", "abc"⟩]))
      = some { SetCookies newScraper [⟨"msToken", "tok"⟩, ⟨"sessionid", "abc"⟩]
                 with isLogged := true } :=
  (cookie_roundtrip (fun x => x) (fun x => some x) (fun _ => rfl)).1
    [⟨"msToken", "tok"⟩, ⟨"sessionid", "abc"⟩]

/-! ## Theorems: SSR extractor -/

/-- C9: an HTML body in which the rehydration marker does not occur makes
the extractor fail with `ErrInvalidResponse`; and whenever the marker is
present and the payload parseable but the embedded user object is empty
(`uniqueId` blank), the extraction step and the whole profile operation
fail with `ErrNotFound`. -/
theorem extractor_error_taxonomy :
    (∀ (parse : String → Option UniversalData) (html : String),
      indexOfSub ssrTagOpen.data html.data = none →
      extractUniversalData parse html = .error .invalidResponse) ∧
    (∀ (parse : String → Option UniversalData) (html : String)
       (d : UniversalData),
      extractUniversalData parse html = .ok d →
      d.defaultScope.userDetail.userInfo.user.uniqueId = "" →
      extractUserFromSSR d = .error .notFound ∧
      ∀ u : String, u ≠ "" → GetUser parse u 200 html = .error .notFound) := by
  refine ⟨fun parse html h => ?_, fun parse html d hok hempty => ⟨?_, ?_⟩⟩
  · simp [extractUniversalData, h]
  · simp [extractUserFromSSR, hempty]
  · intro u hu
    simp [GetUser, if_neg hu, doRequest, classifyStatus, hok,
      extractUserFromSSR, hempty]

/-- Witness for C9: markerless HTML is rejected as invalid, and a marker
wrapping an empty user object makes the profile lookup fail not-found. -/
theorem extractor_error_taxonomy_witness :
    extractUniversalData emptyUserParse "<html></html>"
        = .error .invalidResponse ∧
    GetUser emptyUserParse "nobody" 200 emptyUserHTML = .error .notFound := by
  have h := extractor_error_taxonomy
  refine ⟨h.1 emptyUserParse "<html></html>" (by decide), ?_⟩
  exact (h.2 emptyUserParse emptyUserHTML ⟨⟨⟨⟨⟨"", ""⟩⟩⟩⟩⟩ rfl rfl).2
    "nobody" (by decide)
